import Mathlib

/-!
Shallow embedding of the inventory-management product service
(src/server/src/modules/product/product.services.ts).

MongoDB documents become Lean structures; the database becomes an explicit
state record; each service method becomes a state-passing function returning
an Except result together with the post-state, where the post-state on any
error equals the pre-state (the code aborts the mongoose transaction in its
catch block before rethrowing).

Numbers are modelled as Int: every quantity the claims mention is integral
and the arithmetic involved (sums and products) is exact at these sizes.
Ids are modelled as Nat (product ids) and String (seller/user ids); the
mongoose ObjectId generation is replaced by a nextId counter.
-/

namespace Inventory

/-- CustomError from src/server/src/errors/customError: an HTTP status code
plus a message.  The services construct these directly. -/
structure CustomError where
  status : Nat
  message : String
deriving Repr, DecidableEq

/-- Seller document (read-only from this module's perspective): only the
fields the product service touches (identity and name). -/
structure SellerDoc where
  id : String
  name : String
deriving Repr, DecidableEq

/-- Product document: the fields product.services.ts reads or writes. -/
structure ProductDoc where
  id : Nat
  name : String
  price : Int
  stock : Int
  seller : String
  user : String
deriving Repr, DecidableEq

/-- Purchase (ledger) document, exactly the fields built by
Purchase.create in ProductServices.create and ProductServices.addToStock. -/
structure PurchaseDoc where
  user : String
  seller : String
  product : Nat
  sellerName : String
  productName : String
  quantity : Int
  unitPrice : Int
  totalPrice : Int
deriving Repr, DecidableEq

/-- The visible database state: the three collections the service touches,
plus a counter standing in for ObjectId generation. -/
structure DB where
  sellers : List SellerDoc
  products : List ProductDoc
  purchases : List PurchaseDoc
  nextId : Nat
deriving Repr, DecidableEq

/-- Seller.findById(ref): a missing or undefined reference resolves to null,
otherwise the seller with that id is looked up. -/
def findSellerRef (ref : Option String) (db : DB) : Option SellerDoc :=
  match ref with
  | none => none
  | some sid => db.sellers.find? (fun s => s.id == sid)

/-- Point lookup of a product by id (the _id match of findByIdAndUpdate). -/
def findProduct (pid : Nat) (ps : List ProductDoc) : Option ProductDoc :=
  ps.find? (fun p => p.id == pid)

/-- The create payload (IProduct from product.interface, restricted to the
fields product.services.ts uses): every field may be absent, as with a JSON
body. -/
structure IProduct where
  name : Option String
  price : Option Int
  stock : Option Int
  seller : Option String
deriving Repr, DecidableEq

/-- The loop at the top of ProductServices.create: delete every key whose
value is the empty string.  Only the string-valued fields can hold one. -/
def stripEmptyFields (p : IProduct) : IProduct :=
  { p with
    name := if p.name == some "" then none else p.name
    seller := if p.seller == some "" then none else p.seller }

/-- JavaScript falsiness of an optional string field: absent or empty. -/
def strFalsy : Option String → Bool
  | none => true
  | some s => s == ""

/-- JavaScript falsiness of an optional numeric field: absent or zero
(the check !payload.price is true for price === 0). -/
def numFalsy : Option Int → Bool
  | none => true
  | some v => v == 0

/-- The guard if (!payload.name || !payload.price || !payload.seller) of
ProductServices.create, applied after empty-string stripping. -/
def missingRequired (p : IProduct) : Bool :=
  strFalsy p.name || numFalsy p.price || strFalsy p.seller

/-- Modelled from the spec: product.model.ts (the mongoose schema) is not in
src; per the spec's data model, stock defaults to 0 when unset.  The other
getD defaults are never reached on the validated path. -/
def mkProduct (p : IProduct) (userId : String) (pid : Nat) : ProductDoc :=
  { id := pid
    name := p.name.getD ""
    price := p.price.getD 0
    stock := p.stock.getD 0
    seller := p.seller.getD ""
    user := userId }

/-- The body of the try block of ProductServices.create: resolve the seller,
insert the product, append the derived purchase.  Any thrown CustomError is
returned in the error branch; the state is only produced on success (the
caller commits it) so rollback is by construction. -/
def createInner (p : IProduct) (userId : String) (db : DB) :
    Except CustomError (ProductDoc × DB) :=
  match findSellerRef p.seller db with
  | none => .error ⟨400, "Invalid seller ID provided"⟩
  | some seller =>
    let prod := mkProduct p userId db.nextId
    let purch : PurchaseDoc :=
      { user := userId
        seller := prod.seller
        product := prod.id
        sellerName := seller.name
        productName := prod.name
        quantity := prod.stock
        unitPrice := prod.price
        totalPrice := prod.stock * prod.price }
    .ok (prod, { db with
                  products := db.products ++ [prod]
                  purchases := db.purchases ++ [purch]
                  nextId := db.nextId + 1 })

/-- ProductServices.create: strip empty fields, validate required fields
(thrown before the transaction, hence unwrapped), then run the transactional
body; its failures are wrapped by the catch block and the transaction is
aborted, leaving the pre-state. -/
def create (p : IProduct) (userId : String) (db : DB) :
    Except CustomError ProductDoc × DB :=
  let q := stripEmptyFields p
  if missingRequired q then
    (.error ⟨400, "Missing required fields: name, price, or seller"⟩, db)
  else
    match createInner q userId db with
    | .ok (prod, db1) => (.ok prod, db1)
    | .error e => (.error ⟨400, "Product create failed: " ++ e.message⟩, db)

/-- The payload of addToStock: Pick of IProduct to seller and stock.  The
stock delta is the integer the caller supplies, unconstrained. -/
structure AddStockPayload where
  seller : Option String
  stock : Int
deriving Repr, DecidableEq

/-- The $inc update of findByIdAndUpdate: bump the stock of the document
whose _id matches, atomically at the engine, leaving every other field and
every other document unchanged. -/
def incStock (pid : Nat) (d : Int) (ps : List ProductDoc) : List ProductDoc :=
  ps.map (fun p => if p.id == pid then { p with stock := p.stock + d } else p)

/-- The purchase document built by Purchase.create inside addToStock, from
the pre-update product document and the supplied delta. -/
def mkAddPurchase (userId : String) (sl : SellerDoc) (prev : ProductDoc)
    (d : Int) : PurchaseDoc :=
  { user := userId
    seller := prev.seller
    product := prev.id
    sellerName := sl.name
    productName := prev.name
    quantity := d
    unitPrice := prev.price
    totalPrice := d * prev.price }

/-- The body of the try block of ProductServices.addToStock: resolve the
seller, findByIdAndUpdate with an $inc on stock (no new:true, so the value
returned is the document as it was before the update), 404 if no document
matched, then append the derived purchase. -/
def addToStockInner (pid : Nat) (pl : AddStockPayload) (userId : String)
    (db : DB) : Except CustomError (ProductDoc × DB) :=
  match findSellerRef pl.seller db with
  | none => .error ⟨400, "Invalid seller ID provided"⟩
  | some seller =>
    match findProduct pid db.products with
    | none => .error ⟨404, "Product not found"⟩
    | some prev =>
      .ok (prev, { db with
                    products := incStock pid pl.stock db.products
                    purchases :=
                      db.purchases ++ [mkAddPurchase userId seller prev pl.stock] })

/-- ProductServices.addToStock: run the transactional body; on any thrown
error the catch block aborts the transaction (pre-state preserved) and
rethrows a status-400 CustomError wrapping the cause's message. -/
def addToStock (pid : Nat) (pl : AddStockPayload) (userId : String)
    (db : DB) : Except CustomError ProductDoc × DB :=
  match addToStockInner pid pl userId db with
  | .ok (prev, db1) => (.ok prev, db1)
  | .error e => (.error ⟨400, "Stock update failed: " ++ e.message⟩, db)

/-- ProductServices.read: findOne on user and _id — the lookup is scoped to
the owning user.  (The _isExists precheck from BaseServices, not in src,
only prechecks existence of the id and does not affect the user scoping.) -/
def read (pid : Nat) (userId : String) (db : DB) : Option ProductDoc :=
  db.products.find? (fun p => p.user == userId && p.id == pid)

/-- ProductServices.bulkDelete: deleteMany on the product model with _id in
the given set.  Only the product collection is touched. -/
def bulkDelete (ids : List Nat) (db : DB) : DB :=
  { db with products := db.products.filter (fun p => !(ids.contains p.id)) }

/-- Decidable equality for Except results, so that concrete runs of the
service functions can be checked by decide. -/
instance {ε α : Type} [DecidableEq ε] [DecidableEq α] :
    DecidableEq (Except ε α) := fun x y =>
  match x, y with
  | .ok a, .ok b =>
    if h : a = b then .isTrue (by rw [h]) else .isFalse (by simp [h])
  | .error e, .error f =>
    if h : e = f then .isTrue (by rw [h]) else .isFalse (by simp [h])
  | .ok _, .error _ => .isFalse (by simp)
  | .error _, .ok _ => .isFalse (by simp)

/-- A concrete seller used by the witnesses and counterexamples. -/
def exSeller : SellerDoc := { id := "S1", name := "Seller One" }

/-- A concrete product: id 1, price 10, stock 5, owned by user U1 — the
product of the spec's worked example. -/
def exProd : ProductDoc :=
  { id := 1, name := "Widget", price := 10, stock := 5, seller := "S1", user := "U1" }

/-- A concrete database holding exSeller and exProd and an empty ledger. -/
def exDB : DB :=
  { sellers := [exSeller], products := [exProd], purchases := [], nextId := 2 }

/-- After stripping, the name field is never the empty string. -/
lemma strip_name_ne_empty (p : IProduct) :
    (stripEmptyFields p).name ≠ some "" := by
  unfold stripEmptyFields
  by_cases h : p.name = some ""
  · simp [h]
  · simpa [show (p.name == some "") = false by simpa using h] using h

/-- After stripping, the seller field is never the empty string. -/
lemma strip_seller_ne_empty (p : IProduct) :
    (stripEmptyFields p).seller ≠ some "" := by
  unfold stripEmptyFields
  by_cases h : p.seller = some ""
  · simp [h]
  · simpa [show (p.seller == some "") = false by simpa using h] using h

/-- On a payload whose string fields are not the empty string, the required
fields guard holds exactly when name or seller is absent, or price is absent
or zero. -/
lemma missingRequired_iff (q : IProduct) (hn : q.name ≠ some "")
    (hs : q.seller ≠ some "") :
    missingRequired q = true ↔
      (q.name = none ∨ q.price = none ∨ q.price = some 0 ∨ q.seller = none) := by
  obtain ⟨n, pr, st, sl⟩ := q
  simp only [ne_eq] at hn hs
  unfold missingRequired strFalsy numFalsy
  cases n with
  | none => simp
  | some n =>
    cases sl with
    | none => simp
    | some s =>
      cases pr with
      | none => simp
      | some v =>
        have hn1 : n ≠ "" := fun h => hn (by simp [h])
        have hs1 : s ≠ "" := fun h => hs (by simp [h])
        simp [hn1, hs1]

/-- Claim C1: for every CreateProduct call whose payload passes field
validation, either a Product and exactly one Purchase with quantity equal to
the product stock (defaulting to 0 when unset), unitPrice equal to the price
and totalPrice equal to stock times price both become visible, or (on a
failure inside the atomic unit) neither is visible and the state is the
pre-state. -/
theorem create_atomic_product_purchase (p : IProduct) (u : String) (db : DB)
    (h : missingRequired (stripEmptyFields p) = false) :
    (∃ prod purch,
        (create p u db).1 = .ok prod ∧
        (create p u db).2.products = db.products ++ [prod] ∧
        (create p u db).2.purchases = db.purchases ++ [purch] ∧
        prod.stock = (stripEmptyFields p).stock.getD 0 ∧
        purch.quantity = prod.stock ∧
        purch.unitPrice = prod.price ∧
        purch.totalPrice = prod.stock * prod.price ∧
        purch.product = prod.id) ∨
    (∃ e, (create p u db).1 = .error e ∧ (create p u db).2 = db) := by
  cases hs : findSellerRef (stripEmptyFields p).seller db with
  | none =>
    right
    exact ⟨⟨400, "Product create failed: Invalid seller ID provided"⟩,
      by simp [create, createInner, h, hs], by simp [create, createInner, h, hs]⟩
  | some sl =>
    left
    refine ⟨mkProduct (stripEmptyFields p) u db.nextId,
      { user := u
        seller := (mkProduct (stripEmptyFields p) u db.nextId).seller
        product := (mkProduct (stripEmptyFields p) u db.nextId).id
        sellerName := sl.name
        productName := (mkProduct (stripEmptyFields p) u db.nextId).name
        quantity := (mkProduct (stripEmptyFields p) u db.nextId).stock
        unitPrice := (mkProduct (stripEmptyFields p) u db.nextId).price
        totalPrice := (mkProduct (stripEmptyFields p) u db.nextId).stock *
          (mkProduct (stripEmptyFields p) u db.nextId).price },
      ?_, ?_, ?_, ?_, ?_, ?_, ?_, ?_⟩ <;>
    simp [create, createInner, h, hs, mkProduct]

/-- Witness for C1 at a concrete input: the valid worked example of the spec
run against exDB. -/
theorem create_atomic_product_purchase_witness :
    missingRequired (stripEmptyFields ⟨some "Widget", some 10, some 5, some "S1"⟩) =
      false ∧
    ((∃ prod purch,
        (create ⟨some "Widget", some 10, some 5, some "S1"⟩ "U1" exDB).1 = .ok prod ∧
        (create ⟨some "Widget", some 10, some 5, some "S1"⟩ "U1" exDB).2.products =
          exDB.products ++ [prod] ∧
        (create ⟨some "Widget", some 10, some 5, some "S1"⟩ "U1" exDB).2.purchases =
          exDB.purchases ++ [purch] ∧
        prod.stock =
          (stripEmptyFields ⟨some "Widget", some 10, some 5, some "S1"⟩).stock.getD 0 ∧
        purch.quantity = prod.stock ∧
        purch.unitPrice = prod.price ∧
        purch.totalPrice = prod.stock * prod.price ∧
        purch.product = prod.id) ∨
      (∃ e, (create ⟨some "Widget", some 10, some 5, some "S1"⟩ "U1" exDB).1 =
          .error e ∧
        (create ⟨some "Widget", some 10, some 5, some "S1"⟩ "U1" exDB).2 = exDB)) :=
  ⟨by decide,
    create_atomic_product_purchase ⟨some "Widget", some 10, some 5, some "S1"⟩
      "U1" exDB (by decide)⟩

/-- Claim C5: CreateProduct with a payload passing field validation whose
seller does not resolve commits nothing (the state is unchanged) and
surfaces a 400-class error wrapping the invalid-seller cause. -/
theorem create_invalid_seller_rolls_back (p : IProduct) (u : String) (db : DB)
    (h : missingRequired (stripEmptyFields p) = false)
    (hs : findSellerRef (stripEmptyFields p).seller db = none) :
    create p u db =
      (.error ⟨400, "Product create failed: Invalid seller ID provided"⟩, db) := by
  simp [create, createInner, h, hs]

/-- Witness for C5 at a concrete input: a seller id that resolves to no
seller of exDB. -/
theorem create_invalid_seller_rolls_back_witness :
    missingRequired (stripEmptyFields ⟨some "Widget", some 10, some 5, some "NOSUCH"⟩) =
      false ∧
    findSellerRef
        (stripEmptyFields ⟨some "Widget", some 10, some 5, some "NOSUCH"⟩).seller
        exDB = none ∧
    create ⟨some "Widget", some 10, some 5, some "NOSUCH"⟩ "U1" exDB =
      (.error ⟨400, "Product create failed: Invalid seller ID provided"⟩, exDB) :=
  ⟨by decide, by decide,
    create_invalid_seller_rolls_back ⟨some "Widget", some 10, some 5, some "NOSUCH"⟩
      "U1" exDB (by decide) (by decide)⟩

/-- Claim C7 (amended): CreateProduct fails with the missing-required-field
error exactly when, after stripping empty-string fields, name or seller is
absent, or price is absent or equal to 0 — a present zero price is rejected
by the JavaScript falsiness check, so presence alone does not suffice. -/
theorem create_missing_field_iff (p : IProduct) (u : String) (db : DB) :
    (create p u db).1 =
        .error ⟨400, "Missing required fields: name, price, or seller"⟩ ↔
      ((stripEmptyFields p).name = none ∨ (stripEmptyFields p).price = none ∨
       (stripEmptyFields p).price = some 0 ∨ (stripEmptyFields p).seller = none) := by
  by_cases hm : missingRequired (stripEmptyFields p) = true
  · constructor
    · intro _
      exact (missingRequired_iff (stripEmptyFields p) (strip_name_ne_empty p)
        (strip_seller_ne_empty p)).mp hm
    · intro _
      simp [create, hm]
  · have hm1 : missingRequired (stripEmptyFields p) = false := by
      simpa using hm
    constructor
    · intro hc
      exfalso
      cases hs : findSellerRef (stripEmptyFields p).seller db with
      | none =>
        simp only [create, createInner, hm1, Bool.false_eq_true, if_false, hs] at hc
        exact absurd hc (by decide)
      | some sl =>
        simp [create, createInner, hm1, hs] at hc
    · intro hd
      have := (missingRequired_iff (stripEmptyFields p) (strip_name_ne_empty p)
        (strip_seller_ne_empty p)).mpr hd
      rw [hm1] at this
      exact absurd this (by simp)

/-- Counterexample for C7 as stated: a payload whose name, price and seller
are all present and non-empty (price is the number 0) is still rejected with
the missing-required-fields error instead of proceeding to the transactional
steps. -/
theorem create_rejects_zero_price_cex :
    (create ⟨some "Widget", some 0, some 5, some "S1"⟩ "U1" exDB).1 =
        .error ⟨400, "Missing required fields: name, price, or seller"⟩ ∧
      (⟨some "Widget", some 0, some 5, some "S1"⟩ : IProduct).name = some "Widget" ∧
      (⟨some "Widget", some 0, some 5, some "S1"⟩ : IProduct).price = some 0 ∧
      (⟨some "Widget", some 0, some 5, some "S1"⟩ : IProduct).seller = some "S1" := by
  decide

/-- Looking a product up after the $inc update: the match is the same
document with its stock bumped by the delta, every other field intact. -/
lemma findProduct_incStock (pid : Nat) (d : Int) (ps : List ProductDoc) :
    findProduct pid (incStock pid d ps) =
      (findProduct pid ps).map (fun p => { p with stock := p.stock + d }) := by
  induction ps with
  | nil => rfl
  | cons p ps ih =>
    unfold incStock findProduct
    rw [List.map_cons]
    by_cases hp : p.id = pid
    · rw [if_pos (by simpa using hp),
        List.find?_cons_of_pos _ (by simpa using hp),
        List.find?_cons_of_pos _ (by simpa using hp)]
      rfl
    · rw [if_neg (by simpa using hp),
        List.find?_cons_of_neg _ (by simpa using hp),
        List.find?_cons_of_neg _ (by simpa using hp)]
      exact ih

/-- Claim C2: AddStock with delta d on an existing product with prior stock
pr.stock and a resolvable seller commits stock pr.stock + d and appends
exactly one Purchase with quantity d, unitPrice the product price at the
time of the call and totalPrice d times that price. -/
theorem addToStock_commits_increment_and_purchase (pid : Nat)
    (pl : AddStockPayload) (u : String) (db : DB) (sl : SellerDoc)
    (pr : ProductDoc) (hs : findSellerRef pl.seller db = some sl)
    (hp : findProduct pid db.products = some pr) :
    ((findProduct pid (addToStock pid pl u db).2.products).map
        (fun q => q.stock) = some (pr.stock + pl.stock)) ∧
    ∃ pu, (addToStock pid pl u db).2.purchases = db.purchases ++ [pu] ∧
      pu.quantity = pl.stock ∧ pu.unitPrice = pr.price ∧
      pu.totalPrice = pl.stock * pr.price := by
  refine ⟨?_, ?_⟩
  · simp only [addToStock, addToStockInner, hs, hp]
    rw [findProduct_incStock, hp]
    rfl
  · exact ⟨mkAddPurchase u sl pr pl.stock,
      by simp [addToStock, addToStockInner, hs, hp], rfl, rfl, rfl⟩

/-- Witness for C2 at a concrete input: adding 3 to the stock-5 price-10
product of exDB commits stock 8 and appends the quantity-3 total-30
purchase. -/
theorem addToStock_commits_increment_and_purchase_witness :
    findSellerRef (some "S1") exDB = some exSeller ∧
    findProduct 1 exDB.products = some exProd ∧
    (((findProduct 1 (addToStock 1 ⟨some "S1", 3⟩ "U1" exDB).2.products).map
        (fun q => q.stock) = some (exProd.stock + 3)) ∧
      ∃ pu, (addToStock 1 ⟨some "S1", 3⟩ "U1" exDB).2.purchases =
          exDB.purchases ++ [pu] ∧
        pu.quantity = 3 ∧ pu.unitPrice = exProd.price ∧
        pu.totalPrice = 3 * exProd.price) :=
  ⟨by decide, by decide,
    addToStock_commits_increment_and_purchase 1 ⟨some "S1", 3⟩ "U1" exDB
      exSeller exProd (by decide) (by decide)⟩

/-- Claim C3 (amended): a successful AddStock commits stock pr.stock + d,
but the value returned to the caller is the product document as it was
before the update — findByIdAndUpdate is called without new:true — so the
returned stock field is the prior stock, not the updated one. -/
theorem addToStock_returns_preupdate_product (pid : Nat)
    (pl : AddStockPayload) (u : String) (db : DB) (sl : SellerDoc)
    (pr : ProductDoc) (hs : findSellerRef pl.seller db = some sl)
    (hp : findProduct pid db.products = some pr) :
    (addToStock pid pl u db).1 = .ok pr ∧
    (findProduct pid (addToStock pid pl u db).2.products).map
        (fun q => q.stock) = some (pr.stock + pl.stock) := by
  refine ⟨by simp [addToStock, addToStockInner, hs, hp], ?_⟩
  simp only [addToStock, addToStockInner, hs, hp]
  rw [findProduct_incStock, hp]
  rfl

/-- Witness for the amended C3 at a concrete input. -/
theorem addToStock_returns_preupdate_product_witness :
    findSellerRef (some "S1") exDB = some exSeller ∧
    findProduct 1 exDB.products = some exProd ∧
    ((addToStock 1 ⟨some "S1", 3⟩ "U1" exDB).1 = .ok exProd ∧
      (findProduct 1 (addToStock 1 ⟨some "S1", 3⟩ "U1" exDB).2.products).map
        (fun q => q.stock) = some (exProd.stock + 3)) :=
  ⟨by decide, by decide,
    addToStock_returns_preupdate_product 1 ⟨some "S1", 3⟩ "U1" exDB
      exSeller exProd (by decide) (by decide)⟩

/-- Counterexample for C3 as stated: adding 3 to the product with stock 5
returns a product whose stock field is 5, not 8, even though the committed
stored stock is 8. -/
theorem addToStock_returns_stale_product_cex :
    (addToStock 1 ⟨some "S1", 3⟩ "U1" exDB).1 = .ok exProd ∧
    exProd.stock = 5 ∧ (5 : Int) ≠ 5 + 3 ∧
    (findProduct 1 (addToStock 1 ⟨some "S1", 3⟩ "U1" exDB).2.products).map
        (fun q => q.stock) = some 8 := by
  decide

/-- Claim C4 (amended): AddStock on a productId matching no product, with a
resolvable seller, commits nothing — the state is the pre-state — and the
inner failure is the 404 Product-not-found error, but the error surfaced to
the caller is rewrapped by the catch block with status 400. -/
theorem addToStock_missing_product_rolls_back (pid : Nat)
    (pl : AddStockPayload) (u : String) (db : DB) (sl : SellerDoc)
    (hs : findSellerRef pl.seller db = some sl)
    (hp : findProduct pid db.products = none) :
    addToStock pid pl u db =
      (.error ⟨400, "Stock update failed: Product not found"⟩, db) ∧
    addToStockInner pid pl u db = .error ⟨404, "Product not found"⟩ := by
  constructor <;> simp [addToStock, addToStockInner, hs, hp]

/-- Witness for the amended C4 at a concrete input: product id 99 does not
exist in exDB. -/
theorem addToStock_missing_product_rolls_back_witness :
    findSellerRef (some "S1") exDB = some exSeller ∧
    findProduct 99 exDB.products = none ∧
    (addToStock 99 ⟨some "S1", 3⟩ "U1" exDB =
        (.error ⟨400, "Stock update failed: Product not found"⟩, exDB) ∧
      addToStockInner 99 ⟨some "S1", 3⟩ "U1" exDB =
        .error ⟨404, "Product not found"⟩) :=
  ⟨by decide, by decide,
    addToStock_missing_product_rolls_back 99 ⟨some "S1", 3⟩ "U1" exDB
      exSeller (by decide) (by decide)⟩

/-- Counterexample for C4 as stated: at a concrete missing product id the
error surfaced to the caller carries status 400, not the claimed 404. -/
theorem addToStock_notfound_surfaced_as_400_cex :
    addToStock 99 ⟨some "S1", 3⟩ "U1" exDB =
      (.error ⟨400, "Stock update failed: Product not found"⟩, exDB) ∧
    (400 : Nat) ≠ 404 := by
  decide

/-- An operation of the service, for stating reachability: a CreateProduct
call, an AddStock call, or a bulk delete. -/
inductive Op where
  | createOp (payload : IProduct) (userId : String)
  | addOp (pid : Nat) (payload : AddStockPayload) (userId : String)
  | deleteOp (ids : List Nat)
deriving Repr, DecidableEq

/-- Execute one operation, keeping the committed (or rolled-back) state. -/
def execOp (op : Op) (db : DB) : DB :=
  match op with
  | .createOp p u => (create p u db).2
  | .addOp pid pl u => (addToStock pid pl u db).2
  | .deleteOp ids => bulkDelete ids db

/-- Run a sequence of operations from an initial state. -/
def run (ops : List Op) (db : DB) : DB :=
  ops.foldl (fun db op => execOp op db) db

/-- Every product of the state has non-negative stock. -/
def stocksNonneg (db : DB) : Prop := ∀ p ∈ db.products, 0 ≤ p.stock

instance (db : DB) : Decidable (stocksNonneg db) :=
  inferInstanceAs (Decidable (∀ p ∈ db.products, 0 ≤ p.stock))

/-- The operation only moves stock upward: the created stock (after
defaulting) and the AddStock delta are non-negative. -/
def nonnegOp : Op → Prop
  | .createOp p _ => 0 ≤ (stripEmptyFields p).stock.getD 0
  | .addOp _ pl _ => 0 ≤ pl.stock
  | .deleteOp _ => True

instance (op : Op) : Decidable (nonnegOp op) :=
  match op with
  | .createOp p _ => inferInstanceAs (Decidable (0 ≤ (stripEmptyFields p).stock.getD 0))
  | .addOp _ pl _ => inferInstanceAs (Decidable (0 ≤ pl.stock))
  | .deleteOp _ => inferInstanceAs (Decidable True)

/-- A create call either leaves the product collection unchanged or appends
the one built product. -/
lemma create_products_cases (p : IProduct) (u : String) (db : DB) :
    (create p u db).2.products = db.products ∨
    (create p u db).2.products =
      db.products ++ [mkProduct (stripEmptyFields p) u db.nextId] := by
  by_cases hm : missingRequired (stripEmptyFields p) = true
  · left
    simp [create, hm]
  · have hm1 : missingRequired (stripEmptyFields p) = false := by simpa using hm
    cases hs : findSellerRef (stripEmptyFields p).seller db with
    | none => left; simp [create, createInner, hm1, hs]
    | some sl => right; simp [create, createInner, hm1, hs]

/-- An addToStock call either leaves the product collection unchanged or
applies the $inc update. -/
lemma addToStock_products_cases (pid : Nat) (pl : AddStockPayload)
    (u : String) (db : DB) :
    (addToStock pid pl u db).2.products = db.products ∨
    (addToStock pid pl u db).2.products = incStock pid pl.stock db.products := by
  cases hs : findSellerRef pl.seller db with
  | none => left; simp [addToStock, addToStockInner, hs]
  | some sl =>
    cases hp : findProduct pid db.products with
    | none => left; simp [addToStock, addToStockInner, hs, hp]
    | some pr => right; simp [addToStock, addToStockInner, hs, hp]

/-- One non-decreasing operation preserves non-negativity of all stocks. -/
lemma stocksNonneg_execOp (op : Op) (db : DB) (hop : nonnegOp op)
    (h : stocksNonneg db) : stocksNonneg (execOp op db) := by
  cases op with
  | createOp p u =>
    intro q hq
    simp only [execOp] at hq
    rcases create_products_cases p u db with hc | hc <;> rw [hc] at hq
    · exact h q hq
    · rcases List.mem_append.mp hq with hq1 | hq1
      · exact h q hq1
      · have hq2 : q = mkProduct (stripEmptyFields p) u db.nextId := by
          simpa using hq1
        rw [hq2]
        exact hop
  | addOp pid pl u =>
    intro q hq
    simp only [execOp] at hq
    rcases addToStock_products_cases pid pl u db with hc | hc <;> rw [hc] at hq
    · exact h q hq
    · unfold incStock at hq
      rcases List.mem_map.mp hq with ⟨r, hr, hfr⟩
      by_cases hid : r.id = pid
      · rw [if_pos (by simpa using hid)] at hfr
        rw [← hfr]
        exact add_nonneg (h r hr) hop
      · rw [if_neg (by simpa using hid)] at hfr
        rw [← hfr]
        exact h r hr
  | deleteOp ids =>
    intro q hq
    simp only [execOp, bulkDelete] at hq
    exact h q (List.mem_filter.mp hq).1

/-- Claim C6 (amended): along every sequence of operations starting from a
state with non-negative stocks, stocks stay non-negative provided every
CreateProduct stock (after defaulting) and every AddStock delta is
non-negative; the delta being an unconstrained integer, a negative delta
can drive a stock below zero (see the counterexample). -/
theorem stocks_nonneg_preserved (ops : List Op) (db : DB)
    (h : stocksNonneg db) (hops : ∀ op ∈ ops, nonnegOp op) :
    stocksNonneg (run ops db) := by
  induction ops generalizing db with
  | nil => exact h
  | cons op ops ih =>
    simp only [run, List.foldl_cons]
    exact ih (execOp op db)
      (stocksNonneg_execOp op db (hops op (by simp)) h)
      (fun o ho => hops o (by simp [ho]))

/-- Witness for the amended C6 at a concrete input: an AddStock of 3 then a
CreateProduct with unset (hence 0) stock keep all stocks non-negative. -/
theorem stocks_nonneg_preserved_witness :
    stocksNonneg exDB ∧
    (∀ op ∈ [Op.addOp 1 ⟨some "S1", 3⟩ "U1",
        Op.createOp ⟨some "Gadget", some 7, none, some "S1"⟩ "U1"], nonnegOp op) ∧
    stocksNonneg (run [Op.addOp 1 ⟨some "S1", 3⟩ "U1",
        Op.createOp ⟨some "Gadget", some 7, none, some "S1"⟩ "U1"] exDB) :=
  ⟨by decide, by decide,
    stocks_nonneg_preserved
      [Op.addOp 1 ⟨some "S1", 3⟩ "U1",
        Op.createOp ⟨some "Gadget", some 7, none, some "S1"⟩ "U1"]
      exDB (by decide) (by decide)⟩

/-- Counterexample for C6 as stated: from exDB, whose only product has
stock 5, a single AddStock with delta -10 (an input the operation accepts)
reaches a state whose product has stock -5, which is negative. -/
theorem negative_delta_drives_stock_negative_cex :
    stocksNonneg exDB ∧
    (findProduct 1 (run [Op.addOp 1 ⟨some "S1", -10⟩ "U1"] exDB).products).map
        (fun q => q.stock) = some (-5) ∧
    ¬ stocksNonneg (run [Op.addOp 1 ⟨some "S1", -10⟩ "U1"] exDB) := by
  decide

/-- Claim C8: bulk delete touches only the product collection — the ledger
(purchases) and the seller collection are left exactly as they were. -/
theorem bulkDelete_preserves_ledger (ids : List Nat) (db : DB) :
    (bulkDelete ids db).purchases = db.purchases ∧
    (bulkDelete ids db).sellers = db.sellers :=
  ⟨rfl, rfl⟩

/-- Erase the owning-user field of a ledger entry, for comparing runs of
addToStock under different acting users. -/
def scrubUser (pu : PurchaseDoc) : PurchaseDoc := { pu with user := "" }

/-- Claim C10: addToStock performs no ownership check — two calls differing
only in the acting user return the same result, produce the same products
and sellers, and ledgers equal up to the recorded user field — whereas the
single-product read is scoped to the owning user (shown at a concrete
state where the two users see different results). -/
theorem addToStock_user_independent :
    (∀ (pid : Nat) (pl : AddStockPayload) (u1 u2 : String) (db : DB),
      (addToStock pid pl u1 db).1 = (addToStock pid pl u2 db).1 ∧
      (addToStock pid pl u1 db).2.products = (addToStock pid pl u2 db).2.products ∧
      (addToStock pid pl u1 db).2.sellers = (addToStock pid pl u2 db).2.sellers ∧
      (addToStock pid pl u1 db).2.purchases.map scrubUser =
        (addToStock pid pl u2 db).2.purchases.map scrubUser) ∧
    read 1 "U1" exDB ≠ read 1 "U2" exDB := by
  constructor
  · intro pid pl u1 u2 db
    cases hs : findSellerRef pl.seller db with
    | none => simp [addToStock, addToStockInner, hs]
    | some sl =>
      cases hp : findProduct pid db.products with
      | none => simp [addToStock, addToStockInner, hs, hp]
      | some pr =>
        simp [addToStock, addToStockInner, hs, hp, mkAddPurchase, scrubUser]
  · decide

end Inventory
